import Mathlib

/-!
Verification of the interop header `source/orangeom/orangeom_globals.hpp`.

The header has three groups of content, each embedded below:
  * the export-visibility block choosing `ORANGEOM_API` (and a library
    link request) from the build-time flags `_MSC_VER`, `ORANGEOM_EXPORTS`
    and `_DEBUG`;
  * the wrapper-forwarding `OMWRAPPER` / `OMVWRAPPER` text substitutions;
  * the `PyTRY` / `PyCATCH_r` exception-translation boundary.
-/

/-- The three build-time flags consulted by the conditional-compilation
block of the header. -/
structure BuildFlags where
  msc_ver : Bool
  orangeom_exports : Bool
  debug : Bool
deriving DecidableEq

/-- The possible symbol-visibility annotations `ORANGEOM_API` can expand
to: `__declspec(dllexport)`, `__declspec(dllimport)`, or nothing. -/
inductive Annot where
  | dllexport : Annot
  | dllimport : Annot
  | noAnnot : Annot
deriving DecidableEq

/-- `ORANGEOM_API` as a function of the build flags, following the
conditional structure of the header: under `_MSC_VER`, `dllexport` when
`ORANGEOM_EXPORTS` is defined and `dllimport` otherwise; with no
annotation outside `_MSC_VER`. -/
def ORANGEOM_API (f : BuildFlags) : Annot :=
  if f.msc_ver then
    if f.orangeom_exports then Annot.dllexport else Annot.dllimport
  else Annot.noAnnot

/-- The library artifact requested by the `pragma comment(lib, ...)`
directive, as a function of the build flags: emitted only under
`_MSC_VER` without `ORANGEOM_EXPORTS`, naming `orange_d.lib` when
`_DEBUG` is defined and `orange.lib` otherwise. -/
def pragmaCommentLib (f : BuildFlags) : Option String :=
  if f.msc_ver then
    if f.orangeom_exports then none
    else if f.debug then some "orange_d.lib" else some "orange.lib"
  else none

/-- A call to the external wrapper machinery: the target token, the
forwarded argument, and the API token passed along. -/
structure WrapperCall where
  target : String
  arg : String
  apiToken : String
deriving DecidableEq

/-- `OMWRAPPER(x)` expands to `BASIC_WRAPPER(x, ORANGENE_API)`. -/
def OMWRAPPER (x : String) : WrapperCall :=
  { target := "BASIC_WRAPPER", arg := x, apiToken := "ORANGENE_API" }

/-- `OMVWRAPPER(x)` expands to `BASIC_VWRAPPER(x, ORANGENE_API)`. -/
def OMVWRAPPER (x : String) : WrapperCall :=
  { target := "BASIC_VWRAPPER", arg := x, apiToken := "ORANGENE_API" }

/-- The names defined by a define directive anywhere in this header
(every branch of the conditional block included). -/
def headerDefines : List String :=
  ["__ORANGEOM_GLOBALS", "ORANGEOM_API", "EXPIMP_TEMPLATE",
   "OMWRAPPER", "OMVWRAPPER", "PyTRY", "PYNULL",
   "PyCATCH", "PyCATCH_1", "PyCATCH_r"]

/-- The host (Python runtime) error indicator: clear, or set to an
error category together with a message. -/
inductive HostErr where
  | clear : HostErr
  | set (category : String) (message : String) : HostErr
deriving DecidableEq

/-- The observable host state threaded through a guarded call: the
error indicator, plus a ghost counter of how many times guarded region
bodies have executed (used to state the no-retry property; the
translation boundary itself never touches it). -/
structure HostState where
  err : HostErr
  execCount : Nat
deriving DecidableEq

/-- The native failure kinds a guarded region can raise. The header's
catch clauses name exactly `pyexception` and `mlexception`; `otherExc`
stands for any failure of a kind outside those two. A `pyexception`
carries its own restore logic (its `restore()` member, defined outside
this header), embedded as an update of the host error indicator. -/
inductive Exc where
  | pyexception (restoreFn : HostErr → HostErr) : Exc
  | mlexception (what : String) : Exc
  | otherExc (tag : String) : Exc

/-- What a guarded region body does: produce a value, or raise the
first (and only) failure encountered. -/
inductive BodyResult (α : Type) where
  | ok (v : α) : BodyResult α
  | raise (e : Exc) : BodyResult α

/-- The outward-facing outcome of a guarded call: a returned value with
the resulting host state, or a failure propagating uncaught past the
boundary. -/
inductive GuardedOutcome (α : Type) where
  | ret (v : α) (s : HostState) : GuardedOutcome α
  | uncaught (e : Exc) (s : HostState) : GuardedOutcome α

/-- The host state an outcome leaves behind. -/
def stateOf {α : Type} : GuardedOutcome α → HostState
  | GuardedOutcome.ret _ s => s
  | GuardedOutcome.uncaught _ s => s

/-- Modelled from the spec: `err.restore()` on a `pyexception` — the
failure's own restore logic applied to the host error state. The
member itself is defined outside this header (in the included
object-model support); the spec says the host error state comes to
reflect that failure's own restore behavior. -/
def applyRestore (restoreFn : HostErr → HostErr) (s : HostState) : HostState :=
  { s with err := restoreFn s.err }

/-- The fixed error category named by the second catch clause. -/
def PyExc_OrangeKernel : String := "PyExc_OrangeKernel"

/-- Modelled from the spec: `PYERROR(type, message, result)` from the
included pyxtract support header — a generic-error report: set the host
error state to the given category with the message text verbatim, and
return the given result. -/
def PYERROR {α : Type} (category : String) (message : String) (r : α)
    (s : HostState) : GuardedOutcome α :=
  GuardedOutcome.ret r { s with err := HostErr.set category message }

/-- The guarded call `PyTRY body PyCATCH_r(r)`: run the body; on normal
completion return its value; on a `pyexception` invoke the failure's
restore logic and return the sentinel `r`; on an `mlexception` report
`PyExc_OrangeKernel` with the failure's message and return `r`; any
other failure kind propagates uncaught past the boundary. -/
def PyCATCH_r {α : Type} (body : HostState → BodyResult α × HostState)
    (r : α) (s : HostState) : GuardedOutcome α :=
  match body s with
  | (BodyResult.ok v, s') => GuardedOutcome.ret v s'
  | (BodyResult.raise (Exc.pyexception restoreFn), s') =>
      GuardedOutcome.ret r (applyRestore restoreFn s')
  | (BodyResult.raise (Exc.mlexception whatMsg), s') =>
      PYERROR PyExc_OrangeKernel whatMsg r s'
  | (BodyResult.raise (Exc.otherExc tag), s') =>
      GuardedOutcome.uncaught (Exc.otherExc tag) s'

/-- A host-object pointer; `PYNULL` is the null pointer
`((PyObject *)NULL)`. -/
inductive PyObj where
  | null : PyObj
  | obj (id : Nat) : PyObj
deriving DecidableEq

/-- `PYNULL`, defined in the header as the null object pointer. -/
def PYNULL : PyObj := PyObj.null

/-- `PyCATCH`: the catch macro with the sentinel fixed to `PYNULL`. -/
def PyCATCH (body : HostState → BodyResult PyObj × HostState)
    (s : HostState) : GuardedOutcome PyObj :=
  PyCATCH_r body PYNULL s

/-- `PyCATCH_1`: the catch macro with the sentinel fixed to `-1`. -/
def PyCATCH_1 (body : HostState → BodyResult Int × HostState)
    (s : HostState) : GuardedOutcome Int :=
  PyCATCH_r body (-1) s

/-- Whether a failure kind is one of the two the boundary's catch
clauses recognize. -/
def recognizedKind : Exc → Bool
  | Exc.pyexception _ => true
  | Exc.mlexception _ => true
  | Exc.otherExc _ => false

/-- A concrete restore logic for test bodies: sets the host error
indicator to a specific category and message. -/
def sampleRestore : HostErr → HostErr :=
  fun _ => HostErr.set "PyExc_SystemError" "restored"

/-- Test body raising a `pyexception` after bumping the ghost
execution counter. -/
def bodyPy : HostState → BodyResult Int × HostState :=
  fun s => (BodyResult.raise (Exc.pyexception sampleRestore),
            { s with execCount := s.execCount + 1 })

/-- Test body raising an `mlexception` after bumping the ghost
execution counter. -/
def bodyMl : HostState → BodyResult Int × HostState :=
  fun s => (BodyResult.raise (Exc.mlexception "kernel failure"),
            { s with execCount := s.execCount + 1 })

/-- Test body completing normally after bumping the ghost execution
counter. -/
def bodyOk : HostState → BodyResult Int × HostState :=
  fun s => (BodyResult.ok 42, { s with execCount := s.execCount + 1 })

/-- Test body raising a failure of an unrecognized kind after bumping
the ghost execution counter. -/
def bodyOther : HostState → BodyResult Int × HostState :=
  fun s => (BodyResult.raise (Exc.otherExc "bad_alloc"),
            { s with execCount := s.execCount + 1 })

/-- The initial host state for the test bodies: error indicator clear,
no executions yet. -/
def s0 : HostState := { err := HostErr.clear, execCount := 0 }

/-- Branch lemma: a body completing normally makes the guarded call
return the body's value and state. -/
theorem PyCATCH_r_ok {α : Type} (body : HostState → BodyResult α × HostState)
    (r v : α) (s s' : HostState)
    (h : body s = (BodyResult.ok v, s')) :
    PyCATCH_r body r s = GuardedOutcome.ret v s' := by
  unfold PyCATCH_r
  rw [h]

/-- Branch lemma: a body raising a `pyexception` makes the guarded call
apply the restore logic and return the sentinel. -/
theorem PyCATCH_r_py {α : Type} (body : HostState → BodyResult α × HostState)
    (r : α) (s s' : HostState) (restoreFn : HostErr → HostErr)
    (h : body s = (BodyResult.raise (Exc.pyexception restoreFn), s')) :
    PyCATCH_r body r s =
      GuardedOutcome.ret r { s' with err := restoreFn s'.err } := by
  unfold PyCATCH_r
  rw [h]
  rfl

/-- Branch lemma: a body raising an `mlexception` makes the guarded
call report `PyExc_OrangeKernel` with the message and return the
sentinel. -/
theorem PyCATCH_r_ml {α : Type} (body : HostState → BodyResult α × HostState)
    (r : α) (s s' : HostState) (whatMsg : String)
    (h : body s = (BodyResult.raise (Exc.mlexception whatMsg), s')) :
    PyCATCH_r body r s =
      GuardedOutcome.ret r
        { s' with err := HostErr.set PyExc_OrangeKernel whatMsg } := by
  unfold PyCATCH_r
  rw [h]
  rfl

/-- Branch lemma: a body raising a failure of an unrecognized kind
makes the guarded call propagate it uncaught. -/
theorem PyCATCH_r_other {α : Type} (body : HostState → BodyResult α × HostState)
    (r : α) (s s' : HostState) (tag : String)
    (h : body s = (BodyResult.raise (Exc.otherExc tag), s')) :
    PyCATCH_r body r s = GuardedOutcome.uncaught (Exc.otherExc tag) s' := by
  unfold PyCATCH_r
  rw [h]

/-- Claim C6: `ORANGEOM_API` selects exactly one of three annotations —
`dllexport` when `_MSC_VER` and `ORANGEOM_EXPORTS` are both set,
`dllimport` when `_MSC_VER` is set and `ORANGEOM_EXPORTS` is not, and no
annotation otherwise — and exactly in the `dllimport` mode a library
link request is additionally emitted. -/
theorem orangeom_api_selects_three_modes :
    ∀ m e d : Bool,
      (ORANGEOM_API ⟨m, e, d⟩ = Annot.dllexport ↔ (m = true ∧ e = true)) ∧
      (ORANGEOM_API ⟨m, e, d⟩ = Annot.dllimport ↔ (m = true ∧ e = false)) ∧
      (ORANGEOM_API ⟨m, e, d⟩ = Annot.noAnnot ↔ m = false) ∧
      ((pragmaCommentLib ⟨m, e, d⟩).isSome ↔
        ORANGEOM_API ⟨m, e, d⟩ = Annot.dllimport) := by
  decide

/-- Claim C6 witness: the three modes evaluated at the concrete flag
assignment with `_MSC_VER` set and `ORANGEOM_EXPORTS` unset. -/
theorem orangeom_api_selects_three_modes_witness :
    (ORANGEOM_API ⟨true, false, false⟩ = Annot.dllexport ↔
      (true = true ∧ false = true)) ∧
    (ORANGEOM_API ⟨true, false, false⟩ = Annot.dllimport ↔
      (true = true ∧ false = false)) ∧
    (ORANGEOM_API ⟨true, false, false⟩ = Annot.noAnnot ↔ true = false) ∧
    ((pragmaCommentLib ⟨true, false, false⟩).isSome ↔
      ORANGEOM_API ⟨true, false, false⟩ = Annot.dllimport) :=
  orangeom_api_selects_three_modes true false false

/-- Claim C10: in the `dllimport` mode (`_MSC_VER` set,
`ORANGEOM_EXPORTS` not set) the requested library is `orange_d.lib`
when `_DEBUG` is set and `orange.lib` otherwise; no link request is
emitted in any other mode. -/
theorem pragma_lib_depends_on_debug :
    ∀ m e d : Bool,
      (m = true ∧ e = false ∧ d = true →
        pragmaCommentLib ⟨m, e, d⟩ = some "orange_d.lib") ∧
      (m = true ∧ e = false ∧ d = false →
        pragmaCommentLib ⟨m, e, d⟩ = some "orange.lib") ∧
      (¬(m = true ∧ e = false) → pragmaCommentLib ⟨m, e, d⟩ = none) := by
  decide

/-- Claim C10 witness: the debug-mode link request at the concrete
flag assignment with `_MSC_VER` and `_DEBUG` set. -/
theorem pragma_lib_depends_on_debug_witness :
    (true = true ∧ false = false ∧ true = true) ∧
    pragmaCommentLib ⟨true, false, true⟩ = some "orange_d.lib" :=
  ⟨⟨rfl, rfl, rfl⟩,
   (pragma_lib_depends_on_debug true false true).1 ⟨rfl, rfl, rfl⟩⟩

/-- Claim C7: `OMWRAPPER(x)` expands to `BASIC_WRAPPER(x, ORANGENE_API)`
and `OMVWRAPPER(x)` to `BASIC_VWRAPPER(x, ORANGENE_API)`; the API token
forwarded is `ORANGENE_API`, which differs from the `ORANGEOM_API` name
this header defines and is itself defined nowhere in this header. -/
theorem omwrapper_forwards_orangene_api :
    ∀ x : String,
      OMWRAPPER x = { target := "BASIC_WRAPPER", arg := x,
                      apiToken := "ORANGENE_API" } ∧
      OMVWRAPPER x = { target := "BASIC_VWRAPPER", arg := x,
                       apiToken := "ORANGENE_API" } ∧
      (OMWRAPPER x).apiToken ≠ "ORANGEOM_API" ∧
      (OMVWRAPPER x).apiToken ≠ "ORANGEOM_API" ∧
      (OMWRAPPER x).apiToken ∉ headerDefines ∧
      "ORANGEOM_API" ∈ headerDefines := by
  intro x
  refine ⟨rfl, rfl, ?_, ?_, ?_, ?_⟩
  · show "ORANGENE_API" ≠ "ORANGEOM_API"
    decide
  · show "ORANGENE_API" ≠ "ORANGEOM_API"
    decide
  · show "ORANGENE_API" ∉ headerDefines
    decide
  · decide

/-- Claim C7 witness: the expansion evaluated at the concrete argument
`TGraph`. -/
theorem omwrapper_forwards_orangene_api_witness :
    OMWRAPPER "TGraph" = { target := "BASIC_WRAPPER", arg := "TGraph",
                           apiToken := "ORANGENE_API" } ∧
    OMVWRAPPER "TGraph" = { target := "BASIC_VWRAPPER", arg := "TGraph",
                            apiToken := "ORANGENE_API" } ∧
    (OMWRAPPER "TGraph").apiToken ≠ "ORANGEOM_API" ∧
    (OMVWRAPPER "TGraph").apiToken ≠ "ORANGEOM_API" ∧
    (OMWRAPPER "TGraph").apiToken ∉ headerDefines ∧
    "ORANGEOM_API" ∈ headerDefines :=
  omwrapper_forwards_orangene_api "TGraph"

/-- Claim C8: `OMWRAPPER` and `OMVWRAPPER` perform no logic of their
own: for every argument they forward the argument unchanged, together
with an API token, to `BASIC_WRAPPER` and `BASIC_VWRAPPER`
respectively. -/
theorem omwrappers_forward_argument :
    ∀ x : String,
      (OMWRAPPER x).target = "BASIC_WRAPPER" ∧ (OMWRAPPER x).arg = x ∧
      (OMVWRAPPER x).target = "BASIC_VWRAPPER" ∧ (OMVWRAPPER x).arg = x := by
  intro x
  exact ⟨rfl, rfl, rfl, rfl⟩

/-- Claim C8 witness: the forwarding evaluated at the concrete argument
`TGraphAsList`. -/
theorem omwrappers_forward_argument_witness :
    (OMWRAPPER "TGraphAsList").target = "BASIC_WRAPPER" ∧
    (OMWRAPPER "TGraphAsList").arg = "TGraphAsList" ∧
    (OMVWRAPPER "TGraphAsList").target = "BASIC_VWRAPPER" ∧
    (OMVWRAPPER "TGraphAsList").arg = "TGraphAsList" :=
  omwrappers_forward_argument "TGraphAsList"

/-- Claim C1: a guarded region whose body raises a `pyexception`
returns the caller-supplied sentinel `r`, with the host error state
produced by the failure's own restore logic applied to the state the
body left behind. -/
theorem pycatch_pyexception_restores_and_returns_sentinel
    {α : Type} (body : HostState → BodyResult α × HostState) (r : α)
    (s s' : HostState) (restoreFn : HostErr → HostErr)
    (h : body s = (BodyResult.raise (Exc.pyexception restoreFn), s')) :
    PyCATCH_r body r s =
      GuardedOutcome.ret r { s' with err := restoreFn s'.err } :=
  PyCATCH_r_py body r s s' restoreFn h

/-- Claim C1 witness: the pyexception path evaluated on a concrete
body and sentinel. -/
theorem pycatch_pyexception_witness :
    PyCATCH_r bodyPy 7 s0 =
      GuardedOutcome.ret 7
        { err := HostErr.set "PyExc_SystemError" "restored", execCount := 1 } :=
  pycatch_pyexception_restores_and_returns_sentinel bodyPy 7 s0 _ sampleRestore rfl

/-- Claim C2: a guarded region whose body raises an `mlexception` sets
the host error state to the fixed category `PyExc_OrangeKernel` with
the failure's message text verbatim, and returns the caller-supplied
sentinel `r`; the translation is exactly the `PYERROR` report. -/
theorem pycatch_mlexception_reports_orange_kernel
    {α : Type} (body : HostState → BodyResult α × HostState) (r : α)
    (s s' : HostState) (whatMsg : String)
    (h : body s = (BodyResult.raise (Exc.mlexception whatMsg), s')) :
    PyCATCH_r body r s =
      GuardedOutcome.ret r
        { s' with err := HostErr.set PyExc_OrangeKernel whatMsg } ∧
    PyCATCH_r body r s = PYERROR PyExc_OrangeKernel whatMsg r s' := by
  unfold PyCATCH_r
  rw [h]
  exact ⟨rfl, rfl⟩

/-- Claim C2 witness: the mlexception path evaluated on a concrete
body and sentinel, showing the message forwarded verbatim. -/
theorem pycatch_mlexception_witness :
    PyCATCH_r bodyMl 7 s0 =
      GuardedOutcome.ret 7
        { err := HostErr.set PyExc_OrangeKernel "kernel failure",
          execCount := 1 } :=
  (pycatch_mlexception_reports_orange_kernel bodyMl 7 s0 _ "kernel failure" rfl).1

/-- Claim C3: the boundary recognizes exactly the two failure kinds
`pyexception` and `mlexception`; a raised failure of any other kind
yields no sentinel return — it propagates uncaught past the boundary —
while a recognized failure always yields a sentinel return. -/
theorem pycatch_exactly_two_recognized_kinds
    {α : Type} (body : HostState → BodyResult α × HostState) (r : α)
    (s s' : HostState) (e : Exc)
    (h : body s = (BodyResult.raise e, s')) :
    (∀ ex : Exc, recognizedKind ex = true ↔
      ((∃ f, ex = Exc.pyexception f) ∨ (∃ w, ex = Exc.mlexception w))) ∧
    (recognizedKind e = false →
      PyCATCH_r body r s = GuardedOutcome.uncaught e s') ∧
    (recognizedKind e = true →
      ∃ sf : HostState, PyCATCH_r body r s = GuardedOutcome.ret r sf) := by
  refine ⟨?_, ?_, ?_⟩
  · intro ex
    cases ex with
    | pyexception f => simp [recognizedKind]
    | mlexception w => simp [recognizedKind]
    | otherExc t => simp [recognizedKind]
  · intro hk
    cases e with
    | pyexception f => simp [recognizedKind] at hk
    | mlexception w => simp [recognizedKind] at hk
    | otherExc t =>
        unfold PyCATCH_r
        rw [h]
  · intro hk
    cases e with
    | pyexception f =>
        exact ⟨applyRestore f s', by unfold PyCATCH_r; rw [h]⟩
    | mlexception w =>
        exact ⟨{ s' with err := HostErr.set PyExc_OrangeKernel w },
               by unfold PyCATCH_r; rw [h]; rfl⟩
    | otherExc t => simp [recognizedKind] at hk

/-- Claim C3 witness: an unrecognized failure kind evaluated on a
concrete body propagates uncaught with no sentinel return. -/
theorem pycatch_uncaught_witness :
    PyCATCH_r bodyOther (0 : Int) s0 =
      GuardedOutcome.uncaught (Exc.otherExc "bad_alloc")
        { err := HostErr.clear, execCount := 1 } :=
  (pycatch_exactly_two_recognized_kinds bodyOther 0 s0 _
    (Exc.otherExc "bad_alloc") rfl).2.1 rfl

/-- Claim C4: wrapping is the identity on the success path — a guarded
region whose body raises no failure returns exactly the value and host
state the body produced, independent of the sentinel. -/
theorem pytry_identity_on_success
    {α : Type} (body : HostState → BodyResult α × HostState) (r : α)
    (s : HostState) (v : α) (s' : HostState)
    (h : body s = (BodyResult.ok v, s')) :
    PyCATCH_r body r s = GuardedOutcome.ret v s' := by
  unfold PyCATCH_r
  rw [h]

/-- Claim C4 witness: the success path evaluated on a concrete body —
the wrapped call returns the body's own value, not the sentinel. -/
theorem pytry_identity_on_success_witness :
    PyCATCH_r bodyOk (-1) s0 =
      GuardedOutcome.ret 42 { err := HostErr.clear, execCount := 1 } :=
  pytry_identity_on_success bodyOk (-1) s0 42 _ rfl

/-- Claim C5: no raised failure is retried or suppressed — for a body
that bumps the ghost execution counter once per run, a raised failure
leaves the final counter at exactly one more than at entry (the region
ran exactly once), and the failure kind deterministically fixes the
outcome: restore-and-return for `pyexception`, the generic
`PyExc_OrangeKernel` report for `mlexception`, and uncaught propagation
otherwise. -/
theorem first_failure_decides_outcome_without_retry
    {α : Type} (body : HostState → BodyResult α × HostState) (r : α)
    (hOnce : ∀ t : HostState, ((body t).2).execCount = t.execCount + 1)
    (s s' : HostState) (e : Exc)
    (h : body s = (BodyResult.raise e, s')) :
    (stateOf (PyCATCH_r body r s)).execCount = s.execCount + 1 ∧
    (match e with
     | Exc.pyexception f =>
         PyCATCH_r body r s =
           GuardedOutcome.ret r { s' with err := f s'.err }
     | Exc.mlexception w =>
         PyCATCH_r body r s =
           GuardedOutcome.ret r
             { s' with err := HostErr.set PyExc_OrangeKernel w }
     | Exc.otherExc t =>
         PyCATCH_r body r s =
           GuardedOutcome.uncaught (Exc.otherExc t) s') := by
  have hcount : s'.execCount = s.execCount + 1 := by
    have hb := hOnce s
    rw [h] at hb
    exact hb
  refine ⟨?_, ?_⟩
  · cases e with
    | pyexception f =>
        rw [PyCATCH_r_py body r s s' f h]
        exact hcount
    | mlexception w =>
        rw [PyCATCH_r_ml body r s s' w h]
        exact hcount
    | otherExc t =>
        rw [PyCATCH_r_other body r s s' t h]
        exact hcount
  · cases e with
    | pyexception f => exact PyCATCH_r_py body r s s' f h
    | mlexception w => exact PyCATCH_r_ml body r s s' w h
    | otherExc t => exact PyCATCH_r_other body r s s' t h

/-- Claim C5 witness: the no-retry property evaluated on a concrete
counting body raising an `mlexception`: one execution, and the unique
generic-error outcome. -/
theorem first_failure_without_retry_witness :
    (stateOf (PyCATCH_r bodyMl (5 : Int) s0)).execCount = s0.execCount + 1 ∧
    PyCATCH_r bodyMl (5 : Int) s0 =
      GuardedOutcome.ret 5
        { err := HostErr.set PyExc_OrangeKernel "kernel failure",
          execCount := 1 } :=
  first_failure_decides_outcome_without_retry bodyMl 5 (fun _ => rfl) s0
    { err := HostErr.clear, execCount := 1 }
    (Exc.mlexception "kernel failure") rfl

/-- Claim C9: the convenience catch forms fix their sentinels —
`PyCATCH` is `PyCATCH_r` at the sentinel `PYNULL`, which is the null
object pointer, and `PyCATCH_1` is `PyCATCH_r` at the sentinel `-1`;
only `PyCATCH_r` takes a caller-supplied sentinel. -/
theorem pycatch_fixed_sentinels :
    PYNULL = PyObj.null ∧
    (∀ (body : HostState → BodyResult PyObj × HostState) (s : HostState),
      PyCATCH body s = PyCATCH_r body PYNULL s) ∧
    (∀ (body : HostState → BodyResult Int × HostState) (s : HostState),
      PyCATCH_1 body s = PyCATCH_r body (-1) s) :=
  ⟨rfl, fun _ _ => rfl, fun _ _ => rfl⟩

/-- Claim C9 witness: the fixed sentinels evaluated on a concrete
success body. -/
theorem pycatch_fixed_sentinels_witness :
    PYNULL = PyObj.null ∧
    PyCATCH_1 bodyOk s0 = PyCATCH_r bodyOk (-1) s0 :=
  ⟨pycatch_fixed_sentinels.1, pycatch_fixed_sentinels.2.2 bodyOk s0⟩
